import Mathlib

/-!
Verification of the build orchestrator (build.py) of the jellyfin-packaging
repository, against its natural-language specification.

The script is shallowly embedded: every build function is a pure Lean function
from its inputs (the loaded configuration, the CLI arguments, the values that
the script obtains from the environment: the repository root directory and the
two timestamps) to the ordered trace of external effects it performs (log lines
and `os.system` invocations of the container engine) together with the outcome
of the Python process (normal return, `exit(n)`, or an uncaught exception).

Conventions used throughout the embedding:
- Python dictionaries become association lists (`List (String × _)`), which
  preserve the insertion order that Python dictionaries iterate in; `d.keys()`
  becomes `List.map Prod.fst` and `d[k]` / `k in d.keys()` become `List.lookup`.
- The YAML fields that the script indexes directly and that every configuration
  in the repository provides (`dockerfile`, `imagename`, `archivetypes`,
  `build_function`) are total fields of the configuration structure; the maps
  the script guards with membership tests (`archmaps`, `releases`, `cross-gcc`)
  are association lists, so that an absent key is observable.
- `os.system` is modelled by recording the command string in the trace and by
  consulting an `engine : String → Int` parameter for the exit status of the
  command; the script discards that status, exactly as the source does.
- String literals from the source are reproduced verbatim except that
  apostrophes (and the apostrophes Python quoting would add around interpolated
  values) are omitted, and Python renders `None` as the string "None".
- The changelog templating of the .deb build is file input/output declared out
  of scope by the specification; only its locally computed fields are recorded,
  as a dedicated `changelog` trace event.
-/

/-- One externally observable effect of the script: a `log` line, an
`os.system` command handed to the container engine, or the .deb changelog
write with its locally computed fields (package_version, package_build,
release_comment). -/
inductive Eff where
  | log (msg : String)
  | system (cmd : String)
  | changelog (package_version package_build release_comment : String)
deriving DecidableEq, Repr

/-- Outcome of the Python process: normal completion, an explicit `exit(n)`,
or an uncaught Python exception (which terminates the process abnormally). -/
inductive Outcome where
  | ok
  | exited (code : Nat)
  | uncaught (exn : String)
deriving DecidableEq, Repr

/-- Exit status of the whole process: 0 on normal completion, the argument of
`exit`, and 1 for an uncaught Python exception. -/
def process_exit_code : Outcome → Nat
  | Outcome.ok => 0
  | Outcome.exited c => c
  | Outcome.uncaught _ => 1

/-- One entry of an `archmaps` table of build.yaml: the four per-architecture
identifiers the script reads from it. -/
structure ArchMap where
  PACKAGE_ARCH : String
  DOTNET_ARCH : String
  QEMU_ARCH : String
  IMAGE_ARCH : String
deriving DecidableEq, Repr, Inhabited

/-- The per-build-type configuration record loaded from build.yaml, with the
fields build.py reads. -/
structure BTConfig where
  build_function : String
  dockerfile : String
  imagename : String
  archivetypes : String
  archmaps : List (String × ArchMap)
  releases : List (String × String)
  cross_gcc : List (String × String)
deriving DecidableEq, Repr, Inhabited

/-- The whole configuration: build-type name to configuration record, in the
insertion order of the YAML document. -/
abbrev Configs := List (String × BTConfig)

/-- Python renders the value `None` as the string "None" when interpolated. -/
def pyStrOpt : Option String → String
  | none => "None"
  | some s => s

/-- Python membership plus indexing on a dictionary, where the probed key may
be the value `None` (a missing optional CLI argument): `None in d.keys()` is
`False`, so indexing happens only for a present key. -/
def lookupOptKey (k : Option String) (m : List (String × α)) : Option α :=
  match k with
  | some s => m.lookup s
  | none => none

/-- Python substring test `needle in hay`, on the character list of `hay`. -/
def pyInAux (needle : List Char) : List Char → Bool
  | [] => needle.isEmpty
  | c :: rest => needle.isPrefixOf (c :: rest) || pyInAux needle rest

/-- Python substring test `needle in hay` on strings. -/
def pyIn (needle hay : String) : Bool := pyInAux needle.data hay.data

/-- Python `s.replace(old, new)` replaces every non-overlapping occurrence of
`old`, left to right.  Both uses in the source (`replace("v", "")` and
`replace(".", "")`) have a single-character `old`, for which this is exactly:
replace every occurrence of that character. -/
def pyReplaceChar (needle : Char) (repl : List Char) : List Char → List Char
  | [] => []
  | c :: rest =>
    if c == needle then repl ++ pyReplaceChar needle repl rest
    else c :: pyReplaceChar needle repl rest

/-- Python `s.replace(old, new)` for the single-character needles used by the
script. -/
def pyReplace1 (s : String) (needle : Char) (repl : String) : String :=
  String.mk (pyReplaceChar needle repl.data s.data)

/-- Version normalisation used by every build function of the script:
`jellyfin_version.replace("v", "")`. -/
def normalize_version (jellyfin_version : String) : String :=
  pyReplace1 jellyfin_version 'v' ""

/-- The three flags computed at the top of build_docker (source lines
291-299). -/
structure DockerFlags where
  is_latest : Bool
  is_unstable : Bool
  version_suffix : Bool
deriving DecidableEq, Repr

/-- Stability classification of build_docker (source lines 291-299): the flags
are all decided by the test `"v" in jellyfin_version`, applied to the raw
version before the `replace("v", "")` of line 301. -/
def classify (jellyfin_version : String) : DockerFlags :=
  if pyIn "v" jellyfin_version then
    { is_latest := true, is_unstable := false, version_suffix := true }
  else
    { is_latest := false, is_unstable := true, version_suffix := false }

/-- Rendering of a Python `dict_keys` view inside an f-string, with the
quoting of the individual keys omitted (see the conventions above). -/
def dict_keys_str (ks : List String) : String :=
  "dict_keys([" ++ String.intercalate ", " ks ++ "])"

/-- Source line 20. -/
def docker_build_cmd : String := "docker build --progress=plain --no-cache"

/-- Source line 21. -/
def docker_run_cmd : String := "docker run --rm"

/-- The release comment of the .deb changelog (source lines 85-88); the
misspelling "Jellyin" is in the source.  Computed from the raw version,
before the marker strip of line 89. -/
def deb_release_comment (jellyfin_version : String) : String :=
  if pyIn "v" jellyfin_version then
    "Jellyfin release " ++ jellyfin_version ++
      ", see https://github.com/jellyfin/jellyfin/releases/" ++ jellyfin_version ++
      " for details."
  else
    "Jellyin unstable release " ++ jellyfin_version ++ "."

/-- build_package_deb (source lines 37-110).  The three validation checks run
inside one try/except in source order: build-type, then OS version
(`releases`), then architecture (`archmaps`); the first failure is logged as
"Invalid/unsupported arguments: ..." and the process exits 1.  The changelog
templating (lines 78-99) is recorded as a `changelog` event carrying the
locally computed fields.  The exit statuses returned by `os.system` for the
build and run commands are discarded by the source, so the outcome is `ok`
whatever the engine reports. -/
def build_package_deb (engine : String → Int) (configurations : Configs)
    (jellyfin_version build_type : String) (build_arch build_version : Option String)
    (repo_root_dir : String) : List Eff × Outcome :=
  let ba := pyStrOpt build_arch
  let head := [Eff.log ("> Building an " ++ ba ++ " " ++ build_type ++ " .deb package..."),
               Eff.log ""]
  match configurations.lookup build_type with
  | none =>
    let msg := build_type ++ " is not a valid OS type in " ++
      dict_keys_str (configurations.map Prod.fst)
    (head ++ [Eff.log ("Invalid/unsupported arguments: " ++ msg)], Outcome.exited 1)
  | some c =>
    let os_type := build_type
    match lookupOptKey build_version c.releases with
    | none =>
      let msg := pyStrOpt build_version ++ " is not a valid " ++ build_type ++
        " version in " ++ dict_keys_str (c.releases.map Prod.fst)
      (head ++ [Eff.log ("Invalid/unsupported arguments: " ++ msg)], Outcome.exited 1)
    | some os_version =>
      match lookupOptKey build_arch c.archmaps with
      | none =>
        let msg := ba ++ " is not a valid " ++ build_type ++ " " ++
          pyStrOpt build_version ++ " architecture in " ++
          dict_keys_str (c.archmaps.map Prod.fst)
        (head ++ [Eff.log ("Invalid/unsupported arguments: " ++ msg)], Outcome.exited 1)
      | some am =>
        let PACKAGE_ARCH := am.PACKAGE_ARCH
        let dockerfile := c.dockerfile
        -- cross-gcc is indexed outside the try/except; a missing key would be
        -- an uncaught KeyError.
        match lookupOptKey build_version c.cross_gcc with
        | none => (head, Outcome.uncaught "KeyError: cross-gcc")
        | some crossgccvers =>
          let comment := deb_release_comment jellyfin_version
          let jv := normalize_version jellyfin_version
          let package_build := build_type.take 3 ++ pyReplace1 os_version '.' ""
          let chl := Eff.changelog jv package_build comment
          let bv := pyStrOpt build_version
          let imagename := c.imagename ++ "-" ++ jv ++ "_" ++ ba ++ "-" ++ build_type ++
            "-" ++ bv
          let buildCmd := docker_build_cmd ++ " --build-arg PACKAGE_TYPE=" ++ os_type ++
            " --build-arg PACKAGE_VERSION=" ++ os_version ++
            " --build-arg PACKAGE_ARCH=" ++ PACKAGE_ARCH ++
            " --build-arg GCC_VERSION=" ++ crossgccvers ++
            " --file " ++ repo_root_dir ++ "/" ++ dockerfile ++
            " --tag " ++ imagename ++ " " ++ repo_root_dir
          let runCmd := docker_run_cmd ++ " --volume " ++ repo_root_dir ++
            ":/jellyfin --volume " ++ repo_root_dir ++ "/out/" ++ build_type ++
            ":/dist --env JELLYFIN_VERSION=" ++ jv ++
            " --name " ++ imagename ++ " " ++ imagename
          let _s1 := engine buildCmd
          let _s2 := engine runCmd
          (head ++ [chl, Eff.system buildCmd, Eff.system runCmd], Outcome.ok)

/-- build_package_rpm (source lines 113-120): it logs its banner and then its
body is `pass` — a stub that performs no build step and returns normally. -/
def build_package_rpm (_engine : String → Int) (_configurations : Configs)
    (_jellyfin_version build_type : String) (build_arch _build_version : Option String)
    (_repo_root_dir : String) : List Eff × Outcome :=
  let ba := pyStrOpt build_arch
  ([Eff.log ("> Building an " ++ ba ++ " " ++ build_type ++ " .rpm package..."),
    Eff.log ""], Outcome.ok)

/-- build_portable (source lines 249-275).  Its architecture and OS-version
parameters are declared as `_build_arch` and `_build_version` and are never
read.  The exit statuses of the two engine commands are discarded. -/
def build_portable (engine : String → Int) (configurations : Configs)
    (jellyfin_version build_type : String) (_build_arch _build_version : Option String)
    (repo_root_dir : String) : List Eff × Outcome :=
  let head := [Eff.log "> Building a portable .NET archive...", Eff.log ""]
  let jv := normalize_version jellyfin_version
  match configurations.lookup build_type with
  | none => (head, Outcome.uncaught ("KeyError: " ++ build_type))
  | some c =>
    let dockerfile := c.dockerfile
    let imagename := c.imagename ++ "-" ++ jv ++ "_" ++ build_type
    let archivetypes := c.archivetypes
    let buildCmd := docker_build_cmd ++ " --file " ++ repo_root_dir ++ "/" ++ dockerfile ++
      " --tag " ++ imagename ++ " " ++ repo_root_dir
    let runCmd := docker_run_cmd ++ " --volume " ++ repo_root_dir ++
      ":/jellyfin --volume " ++ repo_root_dir ++ "/out/" ++ build_type ++
      ":/dist --env JELLYFIN_VERSION=" ++ jv ++ " --env BUILD_TYPE=" ++ build_type ++
      " --env ARCHIVE_TYPES=" ++ archivetypes ++ " --name " ++ imagename ++ " " ++ imagename
    let _s1 := engine buildCmd
    let _s2 := engine runCmd
    (head ++ [Eff.system buildCmd, Eff.system runCmd], Outcome.ok)

/-- build_linux (source lines 123-162).  The error message of its architecture
check interpolates `build_version`, which inside this function is the
module-level global (the parameter is the unread `_build_version`); at the
only call site (the dispatch at the bottom of the script) the global holds the
same value as the parameter, which is therefore used here. -/
def build_linux (engine : String → Int) (configurations : Configs)
    (jellyfin_version build_type : String) (build_arch _build_version : Option String)
    (repo_root_dir : String) : List Eff × Outcome :=
  let ba := pyStrOpt build_arch
  let head := [Eff.log ("> Building a portable " ++ ba ++ " Linux archive..."), Eff.log ""]
  match configurations.lookup build_type with
  | none =>
    -- A missing build type raises KeyError inside the try, caught by the same
    -- except clause (unreachable from the dispatch, which validates it first).
    (head ++ [Eff.log ("Invalid/unsupported arguments: " ++ build_type)], Outcome.exited 1)
  | some c =>
    match lookupOptKey build_arch c.archmaps with
    | none =>
      let msg := ba ++ " is not a valid " ++ build_type ++ " " ++
        pyStrOpt _build_version ++ " architecture in " ++
        dict_keys_str (c.archmaps.map Prod.fst)
      (head ++ [Eff.log ("Invalid/unsupported arguments: " ++ msg)], Outcome.exited 1)
    | some am =>
      let PACKAGE_ARCH := am.PACKAGE_ARCH
      let DOTNET_ARCH := am.DOTNET_ARCH
      let jv := normalize_version jellyfin_version
      let dockerfile := c.dockerfile
      let imagename := c.imagename ++ "-" ++ jv ++ "_" ++ ba ++ "-" ++ build_type
      let archivetypes := c.archivetypes
      let buildCmd := docker_build_cmd ++ " --file " ++ repo_root_dir ++ "/" ++ dockerfile ++
        " --tag " ++ imagename ++ " " ++ repo_root_dir
      let runCmd := docker_run_cmd ++ " --volume " ++ repo_root_dir ++
        ":/jellyfin --volume " ++ repo_root_dir ++ "/out/" ++ build_type ++
        ":/dist --env JELLYFIN_VERSION=" ++ jv ++ " --env BUILD_TYPE=" ++ build_type ++
        " --env PACKAGE_ARCH=" ++ PACKAGE_ARCH ++ " --env DOTNET_TYPE=linux" ++
        " --env DOTNET_ARCH=" ++ DOTNET_ARCH ++ " --env ARCHIVE_TYPES=" ++ archivetypes ++
        " --name " ++ imagename ++ " " ++ imagename
      let _s1 := engine buildCmd
      let _s2 := engine runCmd
      (head ++ [Eff.system buildCmd, Eff.system runCmd], Outcome.ok)

/-- build_windows (source lines 165-204).  Both its architecture and version
parameters are the unread `_build_arch` and `_build_version`; its banner and
its error message interpolate the module-level globals `build_arch` and
`build_version`, which at the only call site hold the same values as the
parameters, used here.  The architecture membership test likewise reads the
global `build_arch`. -/
def build_windows (engine : String → Int) (configurations : Configs)
    (jellyfin_version build_type : String) (_build_arch _build_version : Option String)
    (repo_root_dir : String) : List Eff × Outcome :=
  let ba := pyStrOpt _build_arch
  let head := [Eff.log ("> Building a portable " ++ ba ++ " Windows archive..."), Eff.log ""]
  match configurations.lookup build_type with
  | none =>
    (head ++ [Eff.log ("Invalid/unsupported arguments: " ++ build_type)], Outcome.exited 1)
  | some c =>
    match lookupOptKey _build_arch c.archmaps with
    | none =>
      let msg := ba ++ " is not a valid " ++ build_type ++ " " ++
        pyStrOpt _build_version ++ " architecture in " ++
        dict_keys_str (c.archmaps.map Prod.fst)
      (head ++ [Eff.log ("Invalid/unsupported arguments: " ++ msg)], Outcome.exited 1)
    | some am =>
      let PACKAGE_ARCH := am.PACKAGE_ARCH
      let DOTNET_ARCH := am.DOTNET_ARCH
      let jv := normalize_version jellyfin_version
      let dockerfile := c.dockerfile
      let imagename := c.imagename ++ "-" ++ jv ++ "_" ++ ba ++ "-" ++ build_type
      let archivetypes := c.archivetypes
      let buildCmd := docker_build_cmd ++ " --file " ++ repo_root_dir ++ "/" ++ dockerfile ++
        " --tag " ++ imagename ++ " " ++ repo_root_dir
      let runCmd := docker_run_cmd ++ " --volume " ++ repo_root_dir ++
        ":/jellyfin --volume " ++ repo_root_dir ++ "/out/" ++ build_type ++
        ":/dist --env JELLYFIN_VERSION=" ++ jv ++ " --env BUILD_TYPE=" ++ build_type ++
        " --env PACKAGE_ARCH=" ++ PACKAGE_ARCH ++ " --env DOTNET_TYPE=win" ++
        " --env DOTNET_ARCH=" ++ DOTNET_ARCH ++ " --env ARCHIVE_TYPES=" ++ archivetypes ++
        " --name " ++ imagename ++ " " ++ imagename
      let _s1 := engine buildCmd
      let _s2 := engine runCmd
      (head ++ [Eff.system buildCmd, Eff.system runCmd], Outcome.ok)

/-- build_macos (source lines 207-246), identical in shape to build_windows
with DOTNET_TYPE=osx. -/
def build_macos (engine : String → Int) (configurations : Configs)
    (jellyfin_version build_type : String) (_build_arch _build_version : Option String)
    (repo_root_dir : String) : List Eff × Outcome :=
  let ba := pyStrOpt _build_arch
  let head := [Eff.log ("> Building a portable " ++ ba ++ " MacOS archive..."), Eff.log ""]
  match configurations.lookup build_type with
  | none =>
    (head ++ [Eff.log ("Invalid/unsupported arguments: " ++ build_type)], Outcome.exited 1)
  | some c =>
    match lookupOptKey _build_arch c.archmaps with
    | none =>
      let msg := ba ++ " is not a valid " ++ build_type ++ " " ++
        pyStrOpt _build_version ++ " architecture in " ++
        dict_keys_str (c.archmaps.map Prod.fst)
      (head ++ [Eff.log ("Invalid/unsupported arguments: " ++ msg)], Outcome.exited 1)
    | some am =>
      let PACKAGE_ARCH := am.PACKAGE_ARCH
      let DOTNET_ARCH := am.DOTNET_ARCH
      let jv := normalize_version jellyfin_version
      let dockerfile := c.dockerfile
      let imagename := c.imagename ++ "-" ++ jv ++ "_" ++ ba ++ "-" ++ build_type
      let archivetypes := c.archivetypes
      let buildCmd := docker_build_cmd ++ " --file " ++ repo_root_dir ++ "/" ++ dockerfile ++
        " --tag " ++ imagename ++ " " ++ repo_root_dir
      let runCmd := docker_run_cmd ++ " --volume " ++ repo_root_dir ++
        ":/jellyfin --volume " ++ repo_root_dir ++ "/out/" ++ build_type ++
        ":/dist --env JELLYFIN_VERSION=" ++ jv ++ " --env BUILD_TYPE=" ++ build_type ++
        " --env PACKAGE_ARCH=" ++ PACKAGE_ARCH ++ " --env DOTNET_TYPE=osx" ++
        " --env DOTNET_ARCH=" ++ DOTNET_ARCH ++ " --env ARCHIVE_TYPES=" ++ archivetypes ++
        " --name " ++ imagename ++ " " ++ imagename
      let _s1 := engine buildCmd
      let _s2 := engine runCmd
      (head ++ [Eff.system buildCmd, Eff.system runCmd], Outcome.ok)

/-- One iteration of the per-architecture loop of build_docker (source lines
308-345): qemu reset, image build, and the re-tag under the ghcr.io
namespace.  Returns the effects of the iteration together with the image
reference appended to `images` and the one appended to `images_ghcr`. -/
def docker_arch_effs (engine : String → Int) (imagename_base dockerfile jv date
    repo_root_dir : String) (version_suffix : Bool) (entry : String × ArchMap) :
    List Eff × String × String :=
  let arch := entry.1
  let am := entry.2
  let PACKAGE_ARCH := am.PACKAGE_ARCH
  let DOTNET_ARCH := am.DOTNET_ARCH
  let QEMU_ARCH := am.QEMU_ARCH
  let IMAGE_ARCH := am.IMAGE_ARCH
  let imagename :=
    if version_suffix then imagename_base ++ ":" ++ jv ++ "-" ++ arch ++ "." ++ date
    else imagename_base ++ ":" ++ jv ++ "-" ++ arch
  let qemuCmd := docker_run_cmd ++ " --privileged multiarch/qemu-user-static:register --reset"
  let buildCmd := docker_build_cmd ++
    " --build-arg PACKAGE_ARCH=" ++ PACKAGE_ARCH ++
    " --build-arg DOTNET_ARCH=" ++ DOTNET_ARCH ++
    " --build-arg QEMU_ARCH=" ++ QEMU_ARCH ++
    " --build-arg IMAGE_ARCH=" ++ IMAGE_ARCH ++
    " --build-arg JELLYFIN_VERSION=" ++ jv ++
    " --file " ++ repo_root_dir ++ "/" ++ dockerfile ++
    " --tag " ++ imagename ++ " " ++ repo_root_dir
  let tagCmd := "docker image tag " ++ imagename ++ " ghcr.io/" ++ imagename
  let _s1 := engine qemuCmd
  let _s2 := engine buildCmd
  let _s3 := engine tagCmd
  ([Eff.log (">> Building Docker image for " ++ arch ++ "..."), Eff.log "",
    Eff.log (">>> " ++ qemuCmd), Eff.system qemuCmd, Eff.log "",
    Eff.log (">>> " ++ buildCmd), Eff.system buildCmd,
    Eff.system tagCmd, Eff.log ""],
   imagename, "ghcr.io/" ++ imagename)

/-- One iteration of an image push loop of build_docker (source lines 350-360):
two log lines and the push command, whose exit status is discarded. -/
def push_image_effs (engine : String → Int) (registry_label image : String) : List Eff :=
  let cmd := "docker push " ++ image ++ " 2>&1"
  let _s := engine cmd
  [Eff.log (">>> Pushing image " ++ image ++ " to " ++ registry_label),
   Eff.log (">>>> " ++ cmd), Eff.system cmd]

/-- The manifest section of build_docker (source lines 362-428): manifest
creation for the applicable tag classes (dated only when version_suffix;
canonical always; latest when is_latest, else unstable when is_unstable),
each created against docker.io from `images` and against ghcr.io from
`images_ghcr`, followed by the two manifest push loops (docker.io first, then
ghcr.io), each in the order the `manifests` list was built. -/
def manifest_effs (engine : String → Int) (imagename_base jv date : String)
    (fl : DockerFlags) (images images_ghcr : List String) : List Eff :=
  let joined := String.intercalate " " images
  let joined_ghcr := String.intercalate " " images_ghcr
  let dated_tag := imagename_base ++ ":" ++ jv ++ "." ++ date
  let canon_tag := imagename_base ++ ":" ++ jv
  let latest_tag := imagename_base ++ ":latest"
  let unstable_tag := imagename_base ++ ":unstable"
  let head := [Eff.log ">> Building Docker manifests..."]
  let datedPart :=
    if fl.version_suffix then
      let _s1 := engine ("docker manifest create docker.io/" ++ dated_tag ++ " " ++ joined)
      let _s2 := engine ("docker manifest create ghcr.io/" ++ dated_tag ++ " " ++ joined_ghcr)
      [Eff.log ">>> Building dated version manifest...",
       Eff.log (">>>> docker manifest create " ++ dated_tag ++ " " ++ joined),
       Eff.system ("docker manifest create docker.io/" ++ dated_tag ++ " " ++ joined),
       Eff.system ("docker manifest create ghcr.io/" ++ dated_tag ++ " " ++ joined_ghcr)]
    else []
  let canonPart :=
    let _s1 := engine ("docker manifest create docker.io/" ++ canon_tag ++ " " ++ joined)
    let _s2 := engine ("docker manifest create ghcr.io/" ++ canon_tag ++ " " ++ joined_ghcr)
    [Eff.log ">>> Building version manifest...",
     Eff.log (">>>> docker manifest create " ++ canon_tag ++ " " ++ joined),
     Eff.system ("docker manifest create docker.io/" ++ canon_tag ++ " " ++ joined),
     Eff.system ("docker manifest create ghcr.io/" ++ canon_tag ++ " " ++ joined_ghcr)]
  let lastPart :=
    if fl.is_latest then
      let _s1 := engine ("docker manifest create docker.io/" ++ latest_tag ++ " " ++ joined)
      let _s2 := engine ("docker manifest create ghcr.io/" ++ latest_tag ++ " " ++ joined_ghcr)
      [Eff.log ">>> Building latest manifest...",
       Eff.log (">>>> docker manifest create " ++ latest_tag ++ " " ++ joined),
       Eff.system ("docker manifest create docker.io/" ++ latest_tag ++ " " ++ joined),
       Eff.system ("docker manifest create ghcr.io/" ++ latest_tag ++ " " ++ joined_ghcr)]
    else if fl.is_unstable then
      let _s1 := engine ("docker manifest create docker.io/" ++ unstable_tag ++ " " ++ joined)
      let _s2 := engine ("docker manifest create ghcr.io/" ++ unstable_tag ++ " " ++ joined_ghcr)
      [Eff.log ">>> Building unstable manifest...",
       Eff.log (">>>> docker manifest create " ++ unstable_tag ++ " " ++ joined),
       Eff.system ("docker manifest create docker.io/" ++ unstable_tag ++ " " ++ joined),
       Eff.system ("docker manifest create ghcr.io/" ++ unstable_tag ++ " " ++ joined_ghcr)]
    else []
  let manifests :=
    (if fl.version_suffix then [dated_tag] else []) ++ [canon_tag] ++
    (if fl.is_latest then [latest_tag]
     else if fl.is_unstable then [unstable_tag] else [])
  let hubManPushes := (manifests.map (fun m =>
    let cmd := "docker manifest push --purge docker.io/" ++ m ++ " 2>&1"
    let _s := engine cmd
    [Eff.log (">>> Pushing manifest " ++ m ++ " to DockerHub"),
     Eff.log (">>>> " ++ cmd), Eff.system cmd])).flatten
  let ghcrManPushes := (manifests.map (fun m =>
    let cmd := "docker manifest push --purge ghcr.io/" ++ m ++ " 2>&1"
    let _s := engine cmd
    [Eff.log (">>> Pushing manifest " ++ m ++ " to GHCR"),
     Eff.log (">>>> " ++ cmd), Eff.system cmd])).flatten
  head ++ datedPart ++ canonPart ++ lastPart ++ hubManPushes ++ ghcrManPushes

/-- build_docker (source lines 278-428), as written.  After the per-architecture
build loop (which appends to `images` and to `images_ghcr`) and the DockerHub
push loop over `images`, the GHCR push loop of line 357 iterates over the name
`ghcr_images`, which is assigned nowhere in the script (neither locally nor at
module level); evaluating it raises NameError, so the process aborts there and
the manifest section of lines 362-428 is never reached. -/
def build_docker (engine : String → Int) (configurations : Configs)
    (jellyfin_version build_type : String) (_build_arch _build_version : Option String)
    (repo_root_dir date : String) : List Eff × Outcome :=
  let head := [Eff.log "> Building Docker images...", Eff.log ""]
  match configurations.lookup "docker" with
  | none => (head, Outcome.uncaught "KeyError: docker")
  | some cfgD =>
  match configurations.lookup build_type with
  | none => (head, Outcome.uncaught ("KeyError: " ++ build_type))
  | some cfgBT =>
    let dockerfile := cfgBT.dockerfile
    let fl := classify jellyfin_version
    let jv := normalize_version jellyfin_version
    let perArch := cfgD.archmaps.map
      (docker_arch_effs engine cfgD.imagename dockerfile jv date repo_root_dir
        fl.version_suffix)
    let buildEffs := (perArch.map Prod.fst).flatten
    let images := perArch.map (fun p => p.2.1)
    let _images_ghcr := perArch.map (fun p => p.2.2)
    let loginCmd := "docker login 2>&1"
    let _s := engine loginCmd
    let hubPushes := (images.map (push_image_effs engine "DockerHub")).flatten
    (head ++ buildEffs ++ [Eff.system loginCmd] ++ hubPushes,
     Outcome.uncaught "NameError: ghcr_images")

/-- The behaviour the specification describes for build_docker (its section 9
records the `ghcr_images` name as an open question and directs implementers to
push the same logical set of per-architecture images under each registry):
identical to build_docker except that the GHCR push loop iterates the populated
`images_ghcr` list, so execution continues into the manifest section of source
lines 362-428. -/
def build_docker_intended (engine : String → Int) (configurations : Configs)
    (jellyfin_version build_type : String) (_build_arch _build_version : Option String)
    (repo_root_dir date : String) : List Eff × Outcome :=
  let head := [Eff.log "> Building Docker images...", Eff.log ""]
  match configurations.lookup "docker" with
  | none => (head, Outcome.uncaught "KeyError: docker")
  | some cfgD =>
  match configurations.lookup build_type with
  | none => (head, Outcome.uncaught ("KeyError: " ++ build_type))
  | some cfgBT =>
    let dockerfile := cfgBT.dockerfile
    let fl := classify jellyfin_version
    let jv := normalize_version jellyfin_version
    let perArch := cfgD.archmaps.map
      (docker_arch_effs engine cfgD.imagename dockerfile jv date repo_root_dir
        fl.version_suffix)
    let buildEffs := (perArch.map Prod.fst).flatten
    let images := perArch.map (fun p => p.2.1)
    let images_ghcr := perArch.map (fun p => p.2.2)
    let loginCmd := "docker login 2>&1"
    let _s := engine loginCmd
    let hubPushes := (images.map (push_image_effs engine "DockerHub")).flatten
    let ghcrPushes := (images_ghcr.map (push_image_effs engine "GHCR")).flatten
    let manEffs := manifest_effs engine cfgD.imagename jv date fl images images_ghcr
    (head ++ buildEffs ++ [Eff.system loginCmd] ++ hubPushes ++ ghcrPushes ++ manEffs,
     Outcome.ok)

/-- usage (source lines 431-445). -/
def usage (configurations : Configs) (argv0 : String) : List Eff :=
  [Eff.log (argv0 ++ " JELLYFIN_VERSION BUILD_TYPE [BUILD_ARCH] [BUILD_VERSION]"),
   Eff.log "  JELLYFIN_VERSION: The Jellyfin version being built",
   Eff.log "    * Stable releases should be tag names with a v e.g. v10.9.0",
   Eff.log "    * Unstable releases should be master or a date-to-the-hour version e.g. 2024021600",
   Eff.log "  BUILD_TYPE: The type of build to execute",
   Eff.log ("    * Valid options are: " ++
     String.intercalate ", " (configurations.map Prod.fst)),
   Eff.log "  BUILD_ARCH: The CPU architecture of the build",
   Eff.log "    * Valid options are: <empty> [portable/docker only], amd64, arm64, armhf",
   Eff.log "  BUILD_VERSION: A valid OS distribution version (.deb/.rpm build types only)"]

/-- The keys of the function_definitions dictionary (source lines 449-458).
The source lists "build_portable" twice; a duplicated Python dictionary key
keeps its first position, so the key set and order are as below. -/
def function_definitions_keys : List String :=
  ["build_package_deb", "build_package_rpm", "build_portable", "build_linux",
   "build_windows", "build_macos", "build_docker"]

/-- Dispatch through the function_definitions dictionary (source line 505):
the value stored under each key is the build function of the same name.
Indexing the dictionary with a key that is not present would raise KeyError;
the entry point only dispatches identifiers it has checked against
function_definitions_keys, so that branch is unreachable from `main`. -/
def dispatch (engine : String → Int) (configurations : Configs) (fid : String)
    (jellyfin_version build_type : String) (build_arch build_version : Option String)
    (repo_root_dir date : String) : List Eff × Outcome :=
  match fid with
  | "build_package_deb" =>
    build_package_deb engine configurations jellyfin_version build_type build_arch
      build_version repo_root_dir
  | "build_package_rpm" =>
    build_package_rpm engine configurations jellyfin_version build_type build_arch
      build_version repo_root_dir
  | "build_portable" =>
    build_portable engine configurations jellyfin_version build_type build_arch
      build_version repo_root_dir
  | "build_linux" =>
    build_linux engine configurations jellyfin_version build_type build_arch
      build_version repo_root_dir
  | "build_windows" =>
    build_windows engine configurations jellyfin_version build_type build_arch
      build_version repo_root_dir
  | "build_macos" =>
    build_macos engine configurations jellyfin_version build_type build_arch
      build_version repo_root_dir
  | "build_docker" =>
    build_docker engine configurations jellyfin_version build_type build_arch
      build_version repo_root_dir date
  | _ => ([], Outcome.uncaught ("KeyError: " ++ fid))

/-- The effects of the missing-argument branch of the entry point (source
lines 463-467). -/
def missing_args_effs (configurations : Configs) (argv0 : String) : List Eff :=
  [Eff.log "Error: Missing required arguments (JELLYFIN_VERSION and/or BUILD_TYPE)",
   Eff.log ""] ++ usage configurations argv0

/-- The effects of the invalid build-type branch of the entry point (source
lines 469-473). -/
def bt_invalid_effs (configurations : Configs) (argv0 build_type : String) : List Eff :=
  [Eff.log ("Error: The specified build type " ++ build_type ++ " is not valid"),
   Eff.log ""] ++ usage configurations argv0

/-- The effects of the misconfiguration branch of the entry point (source
lines 475-485). -/
def misconfig_effs (build_type : String) : List Eff :=
  [Eff.log ("Error: The specified valid build type " ++ build_type ++
     " does not define a valid build function"),
   Eff.log "This is a misconfiguration of the YAML or the build script; please report a bug!"]

/-- The entry point of the script (source lines 460-507), after the
configuration has been loaded.  `argv` is `sys.argv` (so `argv[0]` is the
script name); `now_hour` is the hour-granularity timestamp taken when
"master" is autocorrected (line 501) and `now_full` the second-granularity
timestamp taken at the top of build_docker (line 304).  Order of the source:
missing-argument check, build-type membership check, build-function
membership check (whose except clause also covers a missing build_function
key, impossible here because the field is total), optional argument capture,
"master" autocorrection with its note, then dispatch. -/
def script_main (engine : String → Int) (configurations : Configs) (argv : List String)
    (repo_root_dir now_hour now_full : String) : List Eff × Outcome :=
  let argv0 := argv.headD ""
  match argv.get? 1, argv.get? 2 with
  | some jellyfin_version0, some build_type =>
    (match configurations.lookup build_type with
     | none => (bt_invalid_effs configurations argv0 build_type, Outcome.exited 1)
     | some c =>
       if c.build_function ∈ function_definitions_keys then
         let build_arch := argv.get? 3
         let build_version := argv.get? 4
         let jellyfin_version :=
           if jellyfin_version0 = "master" then now_hour else jellyfin_version0
         let note :=
           if jellyfin_version0 = "master" then
             [Eff.log ("NOTE: Autocorrecting master version to " ++ now_hour)]
           else []
         let r := dispatch engine configurations c.build_function jellyfin_version
           build_type build_arch build_version repo_root_dir now_full
         (note ++ r.1, r.2)
       else (misconfig_effs build_type, Outcome.exited 1))
  | _, _ => (missing_args_effs configurations argv0, Outcome.exited 1)

/-- Helper for stating trace properties: the effect is an `os.system` command
whose text starts with the given string. -/
def effCmdStartsWith (p : String) (e : Eff) : Bool :=
  match e with
  | Eff.system c => p.data.isPrefixOf c.data
  | _ => false

/-- Helper for stating trace properties: the `os.system` commands of a trace,
in order. -/
def sysCmdsOf (t : List Eff) : List String :=
  t.filterMap (fun e => match e with | Eff.system c => some c | _ => none)

/-- A concrete docker archmaps table shaped like the one of the repository
(two architectures, in map order). -/
def exampleArchmaps : List (String × ArchMap) :=
  [("amd64", { PACKAGE_ARCH := "amd64", DOTNET_ARCH := "x64",
               QEMU_ARCH := "x86_64", IMAGE_ARCH := "amd64" }),
   ("arm64", { PACKAGE_ARCH := "arm64", DOTNET_ARCH := "arm64",
               QEMU_ARCH := "aarch64", IMAGE_ARCH := "arm64v8" })]

/-- The docker build-type configuration entry of the concrete example. -/
def dockerCfgEx : BTConfig :=
  { build_function := "build_docker", dockerfile := "docker/Dockerfile",
    imagename := "jellyfin/jellyfin", archivetypes := "",
    archmaps := exampleArchmaps, releases := [], cross_gcc := [] }

/-- The debian build-type configuration entry of the concrete example. -/
def debianCfgEx : BTConfig :=
  { build_function := "build_package_deb", dockerfile := "debian/Dockerfile",
    imagename := "jellyfin-builder", archivetypes := "",
    archmaps := [("amd64", { PACKAGE_ARCH := "amd64", DOTNET_ARCH := "x64",
                             QEMU_ARCH := "x86_64", IMAGE_ARCH := "amd64" })],
    releases := [("12", "12")], cross_gcc := [("12", "12")] }

/-- The portable build-type configuration entry of the concrete example. -/
def portableCfgEx : BTConfig :=
  { build_function := "build_portable", dockerfile := "portable/Dockerfile",
    imagename := "jellyfin-builder-portable", archivetypes := "tar.gz,zip",
    archmaps := [], releases := [], cross_gcc := [] }

/-- The fedora build-type configuration entry of the concrete example: it
declares the declared-but-stubbed build function build_package_rpm. -/
def fedoraCfgEx : BTConfig :=
  { build_function := "build_package_rpm", dockerfile := "fedora/Dockerfile",
    imagename := "jellyfin-builder-fedora", archivetypes := "",
    archmaps := [("amd64", { PACKAGE_ARCH := "x86_64", DOTNET_ARCH := "x64",
                             QEMU_ARCH := "x86_64", IMAGE_ARCH := "amd64" })],
    releases := [("40", "40")], cross_gcc := [] }

/-- A build-type configuration entry whose build-function identifier does not
exist in the function_definitions dictionary. -/
def badfnCfgEx : BTConfig :=
  { build_function := "build_package_msi", dockerfile := "msi/Dockerfile",
    imagename := "jellyfin-builder-msi", archivetypes := "",
    archmaps := [], releases := [], cross_gcc := [] }

/-- A concrete configuration shaped like the build.yaml of the repository. -/
def exampleConfigs : Configs :=
  [("debian", debianCfgEx), ("fedora", fedoraCfgEx), ("portable", portableCfgEx),
   ("badfn", badfnCfgEx), ("docker", dockerCfgEx)]

/-! Helper lemmas shared by the claim theorems. -/

theorem isPrefixOf_append_true (p a b : List Char) (h : p.isPrefixOf a = true) :
    p.isPrefixOf (a ++ b) = true := by
  rw [List.isPrefixOf_iff_prefix] at h ⊢
  exact h.trans (a.prefix_append b)

theorem isPrefixOf_append_left (p a b : List Char) (h : p.length ≤ a.length) :
    p.isPrefixOf (a ++ b) = p.isPrefixOf a := by
  rw [Bool.eq_iff_iff, List.isPrefixOf_iff_prefix, List.isPrefixOf_iff_prefix]
  exact List.isPrefix_append_of_length h

theorem isPrefixOf_append_false (p a b : List Char)
    (h : (p.take a.length).isPrefixOf a = false) :
    p.isPrefixOf (a ++ b) = false := by
  rw [Bool.eq_false_iff]
  intro hc
  rw [List.isPrefixOf_iff_prefix] at hc
  have h2 : p.take a.length <+: a ++ b := (List.take_prefix _ _).trans hc
  have h3 : (p.take a.length).length ≤ a.length := by
    simp [List.length_take]
  have h4 : p.take a.length <+: a := (List.isPrefix_append_of_length h3).mp h2
  rw [Bool.eq_false_iff] at h
  exact h (List.isPrefixOf_iff_prefix.mpr h4)

theorem beq_eq_decide_eq_char (c d : Char) : (c == d) = decide (c = d) := by
  cases h : decide (c = d)
  · have hne : ¬ c = d := of_decide_eq_false h
    simp [hne]
  · have heq : c = d := of_decide_eq_true h
    subst heq
    simp

theorem pyInAux_singleton (c : Char) (l : List Char) : pyInAux [c] l = l.contains c := by
  induction l with
  | nil => rfl
  | cons d rest ih =>
    show (List.isPrefixOf [c] (d :: rest) || pyInAux [c] rest) = _
    rw [ih]
    simp [List.isPrefixOf, List.contains_cons, beq_eq_decide_eq_char]

theorem pyIn_v_eq_contains (s : String) : pyIn "v" s = s.data.contains 'v' := by
  have hv : ("v" : String).data = ['v'] := rfl
  rw [pyIn, hv, pyInAux_singleton]

theorem pyReplaceChar_nil_repl (c : Char) (l : List Char) :
    pyReplaceChar c [] l = l.filter (fun d => d != c) := by
  induction l with
  | nil => rfl
  | cons d rest ih =>
    cases hdc : d == c with
    | true =>
      have h' : d = c := by simpa using hdc
      simp [pyReplaceChar, List.filter_cons, hdc, ih, h']
    | false =>
      have h' : ¬ d = c := by simpa using hdc
      simp [pyReplaceChar, List.filter_cons, hdc, ih, h']

theorem normalize_version_eq_filter (s : String) :
    normalize_version s = String.mk (s.data.filter (fun d => d != 'v')) := by
  rw [normalize_version, pyReplace1, pyReplaceChar_nil_repl]

theorem effCmdStartsWith_log (p m : String) : effCmdStartsWith p (Eff.log m) = false := rfl

set_option maxRecDepth 4000 in
theorem countP_docker_arch_tag (engine : String → Int) (ib df jv date rr : String)
    (vs : Bool) (entry : String × ArchMap) :
    ((docker_arch_effs engine ib df jv date rr vs entry).1).countP
      (effCmdStartsWith "docker image tag ") = 1 := by
  simp only [docker_arch_effs, List.countP_cons, List.countP_nil, effCmdStartsWith_log]
  simp +decide [effCmdStartsWith, String.data_append, List.append_assoc,
    docker_build_cmd, docker_run_cmd, isPrefixOf_append_false, isPrefixOf_append_true]

theorem countP_push_image_tag (engine : String → Int) (lbl im : String) :
    (push_image_effs engine lbl im).countP (effCmdStartsWith "docker image tag ") = 0 := by
  simp only [push_image_effs, List.countP_cons, List.countP_nil, effCmdStartsWith_log]
  simp +decide [effCmdStartsWith, String.data_append, List.append_assoc,
    isPrefixOf_append_false]

theorem countP_flatten_map_one {α} (p : Eff → Bool) (f : α → List Eff) :
    ∀ l : List α, (∀ e ∈ l, (f e).countP p = 1) → ((l.map f).flatten).countP p = l.length := by
  intro l
  induction l with
  | nil => simp
  | cons x xs ih =>
    intro h
    simp only [List.map_cons, List.flatten_cons, List.countP_append, List.length_cons]
    rw [h x (by simp), ih (fun e he => h e (by simp [he]))]
    omega

theorem countP_flatten_map_zero {α} (p : Eff → Bool) (f : α → List Eff) :
    ∀ l : List α, (∀ e ∈ l, (f e).countP p = 0) → ((l.map f).flatten).countP p = 0 := by
  intro l
  induction l with
  | nil => simp
  | cons x xs ih =>
    intro h
    simp only [List.map_cons, List.flatten_cons, List.countP_append]
    rw [h x (by simp), ih (fun e he => h e (by simp [he]))]

set_option maxRecDepth 4000 in
theorem countP_build_docker_tags (engine : String → Int) (cfgs : Configs)
    (jv bt : String) (a o : Option String) (rr d : String) (cfgD cfgBT : BTConfig)
    (h1 : cfgs.lookup "docker" = some cfgD) (h2 : cfgs.lookup bt = some cfgBT) :
    ((build_docker engine cfgs jv bt a o rr d).1).countP
      (effCmdStartsWith "docker image tag ") = cfgD.archmaps.length := by
  simp only [build_docker, h1, h2]
  simp only [List.countP_append, List.countP_cons, List.countP_nil, effCmdStartsWith_log]
  have hbuild := countP_flatten_map_one (effCmdStartsWith "docker image tag ") Prod.fst
    (cfgD.archmaps.map (docker_arch_effs engine cfgD.imagename cfgBT.dockerfile
      (normalize_version jv) d rr (classify jv).version_suffix))
    (by
      intro e he
      obtain ⟨x, hx, rfl⟩ := List.mem_map.mp he
      exact countP_docker_arch_tag engine cfgD.imagename cfgBT.dockerfile
        (normalize_version jv) d rr (classify jv).version_suffix x)
  have hpush := countP_flatten_map_zero (effCmdStartsWith "docker image tag ")
    (push_image_effs engine "DockerHub")
    ((cfgD.archmaps.map (docker_arch_effs engine cfgD.imagename cfgBT.dockerfile
      (normalize_version jv) d rr (classify jv).version_suffix)).map (fun p => p.2.1))
    (fun e _ => countP_push_image_tag engine "DockerHub" e)
  rw [hbuild, hpush]
  have hlogin : effCmdStartsWith "docker image tag " (Eff.system "docker login 2>&1") = false := by
    decide
  rw [hlogin]
  simp

/-! Concrete runs used by the claim theorems.  The example run is
build_docker on the stable version "v10.9.0" (and "2024021600" for the
unstable case) against exampleConfigs, with repository root "/repo" and
build timestamp "20240216-101112". -/

/-- Helper for stating trace properties on command strings. -/
def strStartsWith (p c : String) : Bool := p.data.isPrefixOf c.data

/-- The per-architecture build segment of the example stable run: for each of
the two declared architectures, the qemu reset, the image build, and the
ghcr.io re-tag. -/
def docker_arch_cmds_ex : List String :=
  ["docker run --rm --privileged multiarch/qemu-user-static:register --reset",
   "docker build --progress=plain --no-cache --build-arg PACKAGE_ARCH=amd64 --build-arg DOTNET_ARCH=x64 --build-arg QEMU_ARCH=x86_64 --build-arg IMAGE_ARCH=amd64 --build-arg JELLYFIN_VERSION=10.9.0 --file /repo/docker/Dockerfile --tag jellyfin/jellyfin:10.9.0-amd64.20240216-101112 /repo",
   "docker image tag jellyfin/jellyfin:10.9.0-amd64.20240216-101112 ghcr.io/jellyfin/jellyfin:10.9.0-amd64.20240216-101112",
   "docker run --rm --privileged multiarch/qemu-user-static:register --reset",
   "docker build --progress=plain --no-cache --build-arg PACKAGE_ARCH=arm64 --build-arg DOTNET_ARCH=arm64 --build-arg QEMU_ARCH=aarch64 --build-arg IMAGE_ARCH=arm64v8 --build-arg JELLYFIN_VERSION=10.9.0 --file /repo/docker/Dockerfile --tag jellyfin/jellyfin:10.9.0-arm64.20240216-101112 /repo",
   "docker image tag jellyfin/jellyfin:10.9.0-arm64.20240216-101112 ghcr.io/jellyfin/jellyfin:10.9.0-arm64.20240216-101112"]

/-- The DockerHub image-push segment of the example stable run. -/
def hub_push_cmds_ex : List String :=
  ["docker push jellyfin/jellyfin:10.9.0-amd64.20240216-101112 2>&1",
   "docker push jellyfin/jellyfin:10.9.0-arm64.20240216-101112 2>&1"]

/-- The GHCR image-push segment the intended behaviour issues for the example
stable run. -/
def ghcr_push_cmds_ex : List String :=
  ["docker push ghcr.io/jellyfin/jellyfin:10.9.0-amd64.20240216-101112 2>&1",
   "docker push ghcr.io/jellyfin/jellyfin:10.9.0-arm64.20240216-101112 2>&1"]

/-- The manifest-create segment of the manifest section for the example stable
run: the dated, canonical and latest classes, each against docker.io (from the
docker.io image references) and against ghcr.io (from the ghcr.io ones). -/
def manifest_create_cmds_ex : List String :=
  ["docker manifest create docker.io/jellyfin/jellyfin:10.9.0.20240216-101112 jellyfin/jellyfin:10.9.0-amd64.20240216-101112 jellyfin/jellyfin:10.9.0-arm64.20240216-101112",
   "docker manifest create ghcr.io/jellyfin/jellyfin:10.9.0.20240216-101112 ghcr.io/jellyfin/jellyfin:10.9.0-amd64.20240216-101112 ghcr.io/jellyfin/jellyfin:10.9.0-arm64.20240216-101112",
   "docker manifest create docker.io/jellyfin/jellyfin:10.9.0 jellyfin/jellyfin:10.9.0-amd64.20240216-101112 jellyfin/jellyfin:10.9.0-arm64.20240216-101112",
   "docker manifest create ghcr.io/jellyfin/jellyfin:10.9.0 ghcr.io/jellyfin/jellyfin:10.9.0-amd64.20240216-101112 ghcr.io/jellyfin/jellyfin:10.9.0-arm64.20240216-101112",
   "docker manifest create docker.io/jellyfin/jellyfin:latest jellyfin/jellyfin:10.9.0-amd64.20240216-101112 jellyfin/jellyfin:10.9.0-arm64.20240216-101112",
   "docker manifest create ghcr.io/jellyfin/jellyfin:latest ghcr.io/jellyfin/jellyfin:10.9.0-amd64.20240216-101112 ghcr.io/jellyfin/jellyfin:10.9.0-arm64.20240216-101112"]

/-- The manifest-create segment of the manifest section for the example
unstable run ("2024021600"): the canonical and unstable classes only. -/
def manifest_create_cmds_unstable_ex : List String :=
  ["docker manifest create docker.io/jellyfin/jellyfin:2024021600 jellyfin/jellyfin:2024021600-amd64 jellyfin/jellyfin:2024021600-arm64",
   "docker manifest create ghcr.io/jellyfin/jellyfin:2024021600 ghcr.io/jellyfin/jellyfin:2024021600-amd64 ghcr.io/jellyfin/jellyfin:2024021600-arm64",
   "docker manifest create docker.io/jellyfin/jellyfin:unstable jellyfin/jellyfin:2024021600-amd64 jellyfin/jellyfin:2024021600-arm64",
   "docker manifest create ghcr.io/jellyfin/jellyfin:unstable ghcr.io/jellyfin/jellyfin:2024021600-amd64 ghcr.io/jellyfin/jellyfin:2024021600-arm64"]

/-- The docker.io manifest-push segment for the example stable run, in the
order the manifests list was built: dated, canonical, latest. -/
def hub_manifest_push_cmds_ex : List String :=
  ["docker manifest push --purge docker.io/jellyfin/jellyfin:10.9.0.20240216-101112 2>&1",
   "docker manifest push --purge docker.io/jellyfin/jellyfin:10.9.0 2>&1",
   "docker manifest push --purge docker.io/jellyfin/jellyfin:latest 2>&1"]

/-- The ghcr.io manifest-push segment for the example stable run, same
order. -/
def ghcr_manifest_push_cmds_ex : List String :=
  ["docker manifest push --purge ghcr.io/jellyfin/jellyfin:10.9.0.20240216-101112 2>&1",
   "docker manifest push --purge ghcr.io/jellyfin/jellyfin:10.9.0 2>&1",
   "docker manifest push --purge ghcr.io/jellyfin/jellyfin:latest 2>&1"]

/-- The per-registry image lists accumulated by the example stable run. -/
def images_ex : List String :=
  ["jellyfin/jellyfin:10.9.0-amd64.20240216-101112",
   "jellyfin/jellyfin:10.9.0-arm64.20240216-101112"]

/-- The ghcr.io references accumulated (as images_ghcr) by the example stable
run. -/
def images_ghcr_ex : List String :=
  ["ghcr.io/jellyfin/jellyfin:10.9.0-amd64.20240216-101112",
   "ghcr.io/jellyfin/jellyfin:10.9.0-arm64.20240216-101112"]

/-- The per-registry image lists accumulated by the example unstable run. -/
def images_unstable_ex : List String :=
  ["jellyfin/jellyfin:2024021600-amd64", "jellyfin/jellyfin:2024021600-arm64"]

/-- The ghcr.io references accumulated by the example unstable run. -/
def images_ghcr_unstable_ex : List String :=
  ["ghcr.io/jellyfin/jellyfin:2024021600-amd64", "ghcr.io/jellyfin/jellyfin:2024021600-arm64"]

set_option maxRecDepth 10000 in
/-- C1: the claim states that a failed image push never prevents the remaining
image and manifest pushes from being attempted and that every failure is
reported in an aggregate report.  On the code this fails: the run is
insensitive to push exit statuses only because os.system results are discarded
(first conjunct: the trace and outcome are identical under an engine that
fails every command and one that succeeds), no report of any kind exists, and
the run always aborts with NameError after the two DockerHub pushes, so the
GHCR pushes and every manifest push are never attempted (remaining
conjuncts). -/
theorem claim1_push_failures_and_missing_report :
    build_docker (fun _ => 1) exampleConfigs "v10.9.0" "docker" none none "/repo"
        "20240216-101112"
      = build_docker (fun _ => 0) exampleConfigs "v10.9.0" "docker" none none "/repo"
        "20240216-101112" ∧
    ((build_docker (fun _ => 1) exampleConfigs "v10.9.0" "docker" none none "/repo"
        "20240216-101112").1).countP (effCmdStartsWith "docker push ") = 2 ∧
    ((build_docker (fun _ => 1) exampleConfigs "v10.9.0" "docker" none none "/repo"
        "20240216-101112").1).countP (effCmdStartsWith "docker push ghcr.io/") = 0 ∧
    ((build_docker (fun _ => 1) exampleConfigs "v10.9.0" "docker" none none "/repo"
        "20240216-101112").1).countP (effCmdStartsWith "docker manifest push") = 0 ∧
    (build_docker (fun _ => 1) exampleConfigs "v10.9.0" "docker" none none "/repo"
        "20240216-101112").2 = Outcome.uncaught "NameError: ghcr_images" :=
  ⟨rfl, by decide, by decide, by decide, rfl⟩

set_option maxRecDepth 10000 in
/-- C2: the claim states that every container-image run creates the manifest
classes dated, canonical and latest (stable) or canonical and unstable
(unstable) against both registries.  On the code this fails: both the stable
and the unstable run abort with NameError before the manifest section, so no
docker manifest create command is ever issued (first four conjuncts).  The
manifest section itself (manifest_effs, source lines 362-428), had it been
reached with the accumulated image lists, would create exactly the claimed
classes (last two conjuncts). -/
theorem claim2_manifest_classes_never_created :
    ((build_docker (fun _ => 0) exampleConfigs "v10.9.0" "docker" none none "/repo"
        "20240216-101112").1).countP (effCmdStartsWith "docker manifest create") = 0 ∧
    (build_docker (fun _ => 0) exampleConfigs "v10.9.0" "docker" none none "/repo"
        "20240216-101112").2 = Outcome.uncaught "NameError: ghcr_images" ∧
    ((build_docker (fun _ => 0) exampleConfigs "2024021600" "docker" none none "/repo"
        "20240216-101112").1).countP (effCmdStartsWith "docker manifest create") = 0 ∧
    (build_docker (fun _ => 0) exampleConfigs "2024021600" "docker" none none "/repo"
        "20240216-101112").2 = Outcome.uncaught "NameError: ghcr_images" ∧
    (sysCmdsOf (manifest_effs (fun _ => 0) "jellyfin/jellyfin" "10.9.0" "20240216-101112"
        (classify "v10.9.0") images_ex images_ghcr_ex)).filter
      (strStartsWith "docker manifest create") = manifest_create_cmds_ex ∧
    (sysCmdsOf (manifest_effs (fun _ => 0) "jellyfin/jellyfin" "2024021600" "20240216-101112"
        (classify "2024021600") images_unstable_ex images_ghcr_unstable_ex)).filter
      (strStartsWith "docker manifest create") = manifest_create_cmds_unstable_ex :=
  ⟨by decide, rfl, by decide, rfl, by decide, by decide⟩

set_option maxRecDepth 10000 in
/-- C3: the GHCR push loop of build_docker (source line 357) iterates the name
ghcr_images, which is assigned in no scope of the script: every run that
reaches the loop aborts there with NameError (first conjunct, for every
configuration and input on which the dictionary lookups preceding the loop
succeed).  The list that is populated with the secondary-registry references
has the different name images_ghcr: in the example run its two references are
created by the re-tag commands, yet no push of any ghcr.io reference appears
in the trace (remaining conjuncts). -/
theorem claim3_ghcr_push_loop_unbound_name (engine : String → Int) (cfgs : Configs)
    (jv bt : String) (ba bv : Option String) (rr d : String) (cfgD cfgBT : BTConfig)
    (h1 : cfgs.lookup "docker" = some cfgD) (h2 : cfgs.lookup bt = some cfgBT) :
    (build_docker engine cfgs jv bt ba bv rr d).2
      = Outcome.uncaught "NameError: ghcr_images" ∧
    ((build_docker (fun _ => 0) exampleConfigs "v10.9.0" "docker" none none "/repo"
        "20240216-101112").1).filter (effCmdStartsWith "docker image tag ")
      = [Eff.system "docker image tag jellyfin/jellyfin:10.9.0-amd64.20240216-101112 ghcr.io/jellyfin/jellyfin:10.9.0-amd64.20240216-101112",
         Eff.system "docker image tag jellyfin/jellyfin:10.9.0-arm64.20240216-101112 ghcr.io/jellyfin/jellyfin:10.9.0-arm64.20240216-101112"] ∧
    ((build_docker (fun _ => 0) exampleConfigs "v10.9.0" "docker" none none "/repo"
        "20240216-101112").1).filter (effCmdStartsWith "docker push ghcr.io/") = [] := by
  refine ⟨?_, by decide, by decide⟩
  simp [build_docker, h1, h2]

set_option maxRecDepth 10000 in
/-- C4: the claim states that every image push to both registries is issued
before any manifest create, with manifest pushes afterwards in the order dated,
canonical, latest/unstable per registry.  On the code this fails: the example
stable run issues only the build segment, the login and the DockerHub pushes
and then aborts with NameError, so the GHCR pushes and every manifest create
and push are absent (first two conjuncts).  Under the intended behaviour
(build_docker_intended, the specification reading of the push loop) the
command sequence is exactly: per-architecture builds, login, DockerHub image
pushes, GHCR image pushes, manifest creates (dated, canonical, latest), then
the manifest pushes dated, canonical, latest against docker.io and then
against ghcr.io (third conjunct) — which is the ordering the claim
describes. -/
theorem claim4_ordering_code_vs_intent :
    sysCmdsOf ((build_docker (fun _ => 0) exampleConfigs "v10.9.0" "docker" none none
        "/repo" "20240216-101112").1)
      = docker_arch_cmds_ex ++ ["docker login 2>&1"] ++ hub_push_cmds_ex ∧
    (build_docker (fun _ => 0) exampleConfigs "v10.9.0" "docker" none none "/repo"
        "20240216-101112").2 = Outcome.uncaught "NameError: ghcr_images" ∧
    sysCmdsOf ((build_docker_intended (fun _ => 0) exampleConfigs "v10.9.0" "docker" none
        none "/repo" "20240216-101112").1)
      = docker_arch_cmds_ex ++ ["docker login 2>&1"] ++ hub_push_cmds_ex ++
        ghcr_push_cmds_ex ++ manifest_create_cmds_ex ++ hub_manifest_push_cmds_ex ++
        ghcr_manifest_push_cmds_ex :=
  ⟨by decide, rfl, by decide⟩

/-- Witness for claim3_ghcr_push_loop_unbound_name at a concrete input: the
hypotheses hold for exampleConfigs and the conclusion follows by applying the
theorem. -/
theorem claim3_witness :
    List.lookup "docker" exampleConfigs = some dockerCfgEx ∧
    List.lookup "docker" exampleConfigs = some dockerCfgEx ∧
    (build_docker (fun _ => 0) exampleConfigs "v10.9.0" "docker" none none "/repo"
        "20240216-101112").2 = Outcome.uncaught "NameError: ghcr_images" :=
  ⟨rfl, rfl,
   (claim3_ghcr_push_loop_unbound_name (fun _ => 0) exampleConfigs "v10.9.0" "docker"
      none none "/repo" "20240216-101112" dockerCfgEx dockerCfgEx rfl rfl).1⟩

/-- C5: for every raw version the request is classified stable (is_latest and
version_suffix set, is_unstable clear) exactly when the raw version contains
the release marker character v; the classification (`classify`, applied by
build_docker to the raw version before the strip of line 301, and the same
test at line 85 of build_package_deb) is computed pre-strip.  Concretely, raw
"v10.9.0" is stable with normalised form "10.9.0" and raw "2024021600" is
unstable with normalised form "2024021600". -/
theorem claim5_stability_classification :
    (∀ raw : String,
      (classify raw).is_latest = raw.data.contains 'v' ∧
      (classify raw).is_unstable = !(raw.data.contains 'v') ∧
      (classify raw).version_suffix = raw.data.contains 'v') ∧
    (classify "v10.9.0").is_latest = true ∧
    normalize_version "v10.9.0" = "10.9.0" ∧
    (classify "2024021600").is_unstable = true ∧
    normalize_version "2024021600" = "2024021600" := by
  refine ⟨fun raw => ?_, by decide, by decide, by decide, by decide⟩
  rw [← pyIn_v_eq_contains raw]
  cases h : pyIn "v" raw <;> simp [classify, h]

/-- Counterexample to C6: the build-type "fedora" of exampleConfigs declares
the build function build_package_rpm, which is declared but stubbed (its body
is `pass`).  The claim says such a configuration must fail fatally with the
misconfiguration message before any build step; instead the run passes the
misconfiguration check (build_package_rpm is a key of function_definitions),
executes the stub — whose whole trace is its two banner lines, with no
misconfiguration message — and exits 0. -/
theorem claim6_counterexample :
    script_main (fun _ => 0) exampleConfigs ["build.py", "2024021600", "fedora"] "/repo"
        "2024021610" "20240216-101112"
      = ([Eff.log "> Building an None fedora .rpm package...", Eff.log ""], Outcome.ok) ∧
    process_exit_code (script_main (fun _ => 0) exampleConfigs
        ["build.py", "2024021600", "fedora"] "/repo" "2024021610" "20240216-101112").2 = 0 ∧
    List.lookup "fedora" exampleConfigs = some fedoraCfgEx ∧
    fedoraCfgEx.build_function = "build_package_rpm" :=
  ⟨rfl, rfl, rfl, rfl⟩

/-- C6 amended: the misconfiguration path fires exactly when the configured
build-function identifier is not a key of the function_definitions dictionary;
the run then stops before any build step with the distinct message that
instructs the operator to report a bug.  A declared-but-stubbed identifier
(build_package_rpm) is a key of the dictionary, so it does not take this path
(second conjunct) and its stub runs as a no-op instead. -/
theorem claim6_misconfig_only_for_unknown_id (engine : String → Int) (cfgs : Configs)
    (argv0 jv bt rr nh nf : String) (c : BTConfig)
    (h1 : cfgs.lookup bt = some c)
    (h2 : c.build_function ∉ function_definitions_keys) :
    script_main engine cfgs [argv0, jv, bt] rr nh nf
      = (misconfig_effs bt, Outcome.exited 1) ∧
    "build_package_rpm" ∈ function_definitions_keys := by
  refine ⟨?_, by decide⟩
  simp [script_main, h1, h2]

/-- Witness for claim6_misconfig_only_for_unknown_id at a concrete input: the
build-type "badfn" declares the unknown identifier build_package_msi. -/
theorem claim6_witness :
    List.lookup "badfn" exampleConfigs = some badfnCfgEx ∧
    badfnCfgEx.build_function ∉ function_definitions_keys ∧
    script_main (fun _ => 0) exampleConfigs ["build.py", "v10.9.0", "badfn"] "/repo"
        "2024021610" "20240216-101112"
      = (misconfig_effs "badfn", Outcome.exited 1) :=
  ⟨rfl, by decide,
   (claim6_misconfig_only_for_unknown_id (fun _ => 0) exampleConfigs "build.py" "v10.9.0"
      "badfn" "/repo" "2024021610" "20240216-101112" badfnCfgEx rfl (by decide)).1⟩

/-- Counterexample to C7: with an engine on which every container command
exits with status 1 — in particular both the image build and the container
run step of the portable build, and of a fully validated .deb build — the
build functions still return normally and the process exit status is 0.  The
claim requires a BuildError and a non-zero exit status in this situation; the
source discards every os.system return value. -/
theorem claim7_counterexample :
    (build_portable (fun _ => 1) exampleConfigs "v10.9.0" "portable" none none
        "/repo").2 = Outcome.ok ∧
    process_exit_code (build_portable (fun _ => 1) exampleConfigs "v10.9.0" "portable"
        none none "/repo").2 = 0 ∧
    (build_package_deb (fun _ => 1) exampleConfigs "v10.9.0" "debian" (some "amd64")
        (some "12") "/repo").2 = Outcome.ok ∧
    process_exit_code (build_package_deb (fun _ => 1) exampleConfigs "v10.9.0" "debian"
        (some "amd64") (some "12") "/repo").2 = 0 :=
  ⟨rfl, rfl, rfl, rfl⟩

/-- C7 amended: the exit statuses of the container build and run steps are
ignored — the whole run of build_portable is one and the same for any two
engines, whatever statuses they report, and it ends in Outcome.ok (process
exit 0) whenever the build-type key resolves; a non-zero exit can only come
from the validation and configuration checks that precede the build steps. -/
theorem claim7_step_failures_ignored (engine engine2 : String → Int) (cfgs : Configs)
    (jv bt : String) (ba bv : Option String) (rr : String) (c : BTConfig)
    (h : cfgs.lookup bt = some c) :
    (build_portable engine cfgs jv bt ba bv rr).2 = Outcome.ok ∧
    build_portable engine cfgs jv bt ba bv rr = build_portable engine2 cfgs jv bt ba bv rr := by
  refine ⟨?_, rfl⟩
  simp [build_portable, h]

/-- Witness for claim7_step_failures_ignored at a concrete input. -/
theorem claim7_witness :
    List.lookup "portable" exampleConfigs = some portableCfgEx ∧
    (build_portable (fun _ => 1) exampleConfigs "v10.9.0" "portable" none none
        "/repo").2 = Outcome.ok :=
  ⟨rfl,
   (claim7_step_failures_ignored (fun _ => 1) (fun _ => 0) exampleConfigs "v10.9.0"
      "portable" none none "/repo" portableCfgEx rfl).1⟩

/-- Counterexample to C8: a .deb request whose architecture ("mips") and OS
version ("99") are both invalid.  The claim orders the architecture check
(item 3) before the OS-version check (item 4), so the first failing check
would be the architecture one; the code reports the OS-version error — the
trace ends with the OS-version message and contains no architecture
message. -/
theorem claim8_counterexample :
    build_package_deb (fun _ => 0) exampleConfigs "v10.9.0" "debian" (some "mips")
        (some "99") "/repo"
      = ([Eff.log "> Building an mips debian .deb package...", Eff.log "",
          Eff.log "Invalid/unsupported arguments: 99 is not a valid debian version in dict_keys([12])"],
         Outcome.exited 1) :=
  rfl

/-- C8 amended: validation is fail-fast in the order: (1) the build type must
exist in the configuration (entry point), (2) its build-function identifier
must be a key of the function table (entry point), and, inside the .deb build
function, (3) the OS version must resolve in the releases map, then (4) the
architecture must resolve in the archmaps map — OS version before
architecture.  Each failing check is the first one reported, with a message
naming the offending value and the set of valid alternatives. -/
theorem claim8_validation_order (engine : String → Int) (cfgs : Configs)
    (argv0 jv bt a v rr nh nf : String) (c : BTConfig) :
    (cfgs.lookup bt = none →
      script_main engine cfgs [argv0, jv, bt, a, v] rr nh nf
        = (bt_invalid_effs cfgs argv0 bt, Outcome.exited 1)) ∧
    (cfgs.lookup bt = some c → c.build_function ∉ function_definitions_keys →
      script_main engine cfgs [argv0, jv, bt, a, v] rr nh nf
        = (misconfig_effs bt, Outcome.exited 1)) ∧
    (cfgs.lookup bt = some c → c.releases.lookup v = none →
      build_package_deb engine cfgs jv bt (some a) (some v) rr
        = ([Eff.log ("> Building an " ++ a ++ " " ++ bt ++ " .deb package..."), Eff.log "",
            Eff.log ("Invalid/unsupported arguments: " ++ v ++ " is not a valid " ++ bt ++
              " version in " ++ dict_keys_str (c.releases.map Prod.fst))],
           Outcome.exited 1)) ∧
    (∀ osv, cfgs.lookup bt = some c → c.releases.lookup v = some osv →
      c.archmaps.lookup a = none →
      build_package_deb engine cfgs jv bt (some a) (some v) rr
        = ([Eff.log ("> Building an " ++ a ++ " " ++ bt ++ " .deb package..."), Eff.log "",
            Eff.log ("Invalid/unsupported arguments: " ++ a ++ " is not a valid " ++ bt ++
              " " ++ v ++ " architecture in " ++ dict_keys_str (c.archmaps.map Prod.fst))],
           Outcome.exited 1)) := by
  refine ⟨?_, ?_, ?_, ?_⟩
  · intro h1
    simp [script_main, h1]
  · intro h1 h2
    simp [script_main, h1, h2]
  · intro h1 h2
    simp [build_package_deb, h1, lookupOptKey, h2, pyStrOpt, String.append_assoc]
  · intro osv h1 h2 h3
    simp [build_package_deb, h1, lookupOptKey, h2, h3, pyStrOpt, String.append_assoc]

/-- Witness for claim8_validation_order at a concrete input, instantiating the
OS-version conjunct: with both the OS version and the architecture invalid,
the reported error is the OS-version one. -/
theorem claim8_witness :
    List.lookup "debian" exampleConfigs = some debianCfgEx ∧
    List.lookup "99" debianCfgEx.releases = none ∧
    build_package_deb (fun _ => 0) exampleConfigs "v10.9.0" "debian" (some "mips")
        (some "99") "/repo"
      = ([Eff.log ("> Building an " ++ "mips" ++ " " ++ "debian" ++ " .deb package..."),
          Eff.log "",
          Eff.log ("Invalid/unsupported arguments: " ++ "99" ++ " is not a valid " ++
            "debian" ++ " version in " ++ dict_keys_str (debianCfgEx.releases.map Prod.fst))],
         Outcome.exited 1) :=
  ⟨rfl, rfl,
   (claim8_validation_order (fun _ => 0) exampleConfigs "build.py" "v10.9.0" "debian"
      "mips" "99" "/repo" "2024021610" "20240216-101112" debianCfgEx).2.2.1 rfl rfl⟩

/-- Counterexample to C9: the claim requires every character other than a
leading release marker — including interior occurrences of the marker
character — to be preserved by normalisation, so "v10.9.0-dev" would have to
normalise to "10.9.0-dev"; the code (replace("v", "")) removes the interior
occurrence too and yields "10.9.0-de". -/
theorem claim9_counterexample :
    normalize_version "v10.9.0-dev" = "10.9.0-de" ∧
    normalize_version "v10.9.0-dev" ≠ "10.9.0-dev" :=
  ⟨rfl, by decide⟩

/-- C9 amended: normalisation removes every occurrence of the marker
character v, wherever it occurs in the raw version (Python str.replace
replaces all occurrences); all other characters are preserved in order. -/
theorem claim9_normalization_removes_all_markers (raw : String) :
    normalize_version raw = String.mk (raw.data.filter (fun c => c != 'v')) :=
  normalize_version_eq_filter raw

/-- Witness for claim9_normalization_removes_all_markers at a concrete
input. -/
theorem claim9_witness :
    normalize_version "v10.9.0-dev" = String.mk ("v10.9.0-dev".data.filter (fun c => c != 'v')) :=
  claim9_normalization_removes_all_markers "v10.9.0-dev"

/-- C10: build_portable and build_docker ignore their architecture and
OS-version arguments — two invocations differing only in those arguments
(present or absent) produce identical traces and outcomes (first two
conjuncts, equalities that hold definitionally because the source binds the
arguments as the unread parameters _build_arch and _build_version) — and the
container-image build loop issues exactly one re-tag command (hence one built
image) per architecture declared in the docker archmaps table, independently
of the supplied architecture (third conjunct). -/
theorem claim10_arch_and_osversion_ignored (engine : String → Int) (cfgs : Configs)
    (jv bt : String) (a1 a2 o1 o2 : Option String) (rr d : String) (cfgD cfgBT : BTConfig)
    (h1 : cfgs.lookup "docker" = some cfgD) (h2 : cfgs.lookup bt = some cfgBT) :
    build_portable engine cfgs jv bt a1 o1 rr = build_portable engine cfgs jv bt a2 o2 rr ∧
    build_docker engine cfgs jv bt a1 o1 rr d = build_docker engine cfgs jv bt a2 o2 rr d ∧
    ((build_docker engine cfgs jv bt a1 o1 rr d).1).countP
      (effCmdStartsWith "docker image tag ") = cfgD.archmaps.length :=
  ⟨rfl, rfl, countP_build_docker_tags engine cfgs jv bt a1 o1 rr d cfgD cfgBT h1 h2⟩

/-- Witness for claim10_arch_and_osversion_ignored at a concrete input. -/
theorem claim10_witness :
    List.lookup "docker" exampleConfigs = some dockerCfgEx ∧
    build_docker (fun _ => 0) exampleConfigs "v10.9.0" "docker" (some "amd64") (some "12")
        "/repo" "20240216-101112"
      = build_docker (fun _ => 0) exampleConfigs "v10.9.0" "docker" none none "/repo"
        "20240216-101112" ∧
    ((build_docker (fun _ => 0) exampleConfigs "v10.9.0" "docker" (some "amd64") (some "12")
        "/repo" "20240216-101112").1).countP (effCmdStartsWith "docker image tag ")
      = dockerCfgEx.archmaps.length := by
  obtain ⟨hA, hB, hC⟩ := claim10_arch_and_osversion_ignored (fun _ => 0) exampleConfigs
    "v10.9.0" "docker" (some "amd64") none (some "12") none "/repo" "20240216-101112"
    dockerCfgEx dockerCfgEx rfl rfl
  exact ⟨rfl, hB, hC⟩
